import Mathlib

/-!
A verification development for the `pygh` release-automation library
(`src/pygh/__init__.py`).  The Python classes `Version` and `GitVersion`,
the module-level functions `write_changelog` and `release`, and the slices
of the Python runtime they rely on (`int()` parsing, `str.split`, `%i`
formatting, tuple comparison) are embedded as executable Lean definitions,
and the behavioural properties of the library are proved against them.

Modelling conventions:
  * Python `int` is `Int` (arbitrary precision in both languages).
  * A raised Python exception is an `Except.error` carrying a `PyError`;
    the `PyError` constructors correspond to the exception classes the
    embedded code can actually raise (built-ins plus the module's own
    `ReleaseError`).
  * Strings are ASCII-modelled: the `int(s, base)` embedding accepts the
    ASCII digit/sign/prefix/underscore grammar of CPython.
  * External collaborators of `release` (the `git` subprocesses, the GitHub
    REST API and the pystache template renderer) are read-only inputs
    supplied through an `Env` record, and the state-mutating steps of a
    release are recorded in an `Effect` trace instead of being performed.
-/

/-- The exceptions the embedded code can raise: Python built-ins plus the
`ReleaseError` class defined by the module itself. -/
inductive PyError where
  | valueError (msg : String)
  | indexError (msg : String)
  | attributeError (name : String)
  | typeError (msg : String)
  | keyError (msg : String)
  | releaseError (msg : String)
  | executeCommandError (msg : String)
  | httpApiError (msg : String)
deriving Repr, DecidableEq

/-- The whitespace characters stripped by Python's `int()` conversion
(ASCII model of `str.strip()`). -/
def isPySpace (c : Char) : Bool :=
  c = ' ' || c = '\t' || c = '\n' || c = '\r' || c = '\x0b' || c = '\x0c'

/-- `str.strip()` on a character list: drop whitespace from both ends. -/
def pyStrip (cs : List Char) : List Char :=
  ((cs.dropWhile isPySpace).reverse.dropWhile isPySpace).reverse

/-- The numeric value of an ASCII digit character in bases up to 16;
characters that are not such digits get the sentinel value 99, which is
rejected by every supported base. -/
def hexDigitVal (c : Char) : Nat :=
  if '0' ≤ c ∧ c ≤ '9' then c.toNat - 48
  else if 'a' ≤ c ∧ c ≤ 'f' then c.toNat - 87
  else if 'A' ≤ c ∧ c ≤ 'F' then c.toNat - 55
  else 99

/-- Digit-run scanner for `int(s, base)`: a single underscore is allowed
between two digits (CPython grammar); anything else stops with failure. -/
def goDigits (base : Nat) : List Char → Nat → Option Nat
  | [], acc => some acc
  | c :: rest, acc =>
    if c = '_' then
      match rest with
      | [] => none
      | c2 :: rest2 =>
        if hexDigitVal c2 < base then goDigits base rest2 (acc * base + hexDigitVal c2)
        else none
    else if hexDigitVal c < base then goDigits base rest (acc * base + hexDigitVal c)
    else none

/-- Parse a non-empty digit run (the first character must be a digit, so a
leading underscore is rejected as in CPython). -/
def parseDigitsBase (base : Nat) (cs : List Char) : Option Nat :=
  match cs with
  | [] => none
  | c :: rest => if hexDigitVal c < base then goDigits base rest (hexDigitVal c) else none

/-- Drop an optional `0x`/`0X` base marker (with CPython's optional single
underscore after it) for base-16 parsing. -/
def dropHexMark : List Char → List Char
  | '0' :: 'x' :: rest =>
    match rest with
    | '_' :: r2 => r2
    | _ => rest
  | '0' :: 'X' :: rest =>
    match rest with
    | '_' :: r2 => r2
    | _ => rest
  | cs => cs

/-- Read the optional leading sign of an `int()` literal, returning the
sign and the remaining characters. -/
def signSplit : List Char → Int × List Char
  | [] => (1, [])
  | c :: rest =>
    if c = '+' then (1, rest)
    else if c = '-' then (-1, rest)
    else (1, c :: rest)

/-- CPython's `int(s, base)` for bases 10 and 16 (ASCII model): strip
whitespace, read an optional sign, drop an optional `0x` marker in base 16,
then require a valid digit run.  `none` models the `ValueError` that
`int()` raises on rejection. -/
def pyIntOfString (s : String) (base : Nat) : Option Int :=
  (parseDigitsBase base
    (if base = 16 then dropHexMark (signSplit (pyStrip s.data)).2
     else (signSplit (pyStrip s.data)).2)).map
    fun n => (signSplit (pyStrip s.data)).1 * Int.ofNat n

/-- Python's `str.split(sep)` for a one-character separator, on character
lists.  Splitting the empty string yields `[[]]`, as in Python. -/
def splitOnChar (sep : Char) : List Char → List (List Char)
  | [] => [[]]
  | c :: cs =>
    if c = sep then [] :: splitOnChar sep cs
    else
      match splitOnChar sep cs with
      | [] => [[c]]
      | g :: gs => (c :: g) :: gs

/-- The ASCII character for a decimal digit value. -/
def digitToChar (d : Nat) : Char :=
  match d with
  | 0 => '0' | 1 => '1' | 2 => '2' | 3 => '3' | 4 => '4'
  | 5 => '5' | 6 => '6' | 7 => '7' | 8 => '8' | 9 => '9'
  | _ => '*'

/-- Decimal rendering of a natural number, as produced by Python's `%i`
formatting (most significant digit first, `0` rendered as `"0"`). -/
def natToChars (n : Nat) : List Char :=
  if n = 0 then ['0'] else (Nat.digits 10 n).reverse.map digitToChar

/-- Decimal rendering of an integer, as produced by Python's `%i`. -/
def intToChars (i : Int) : List Char :=
  if i < 0 then '-' :: natToChars i.natAbs else natToChars i.toNat

/-- The semantic-version value class: `Version.major/minor/patch` from
`src/pygh/__init__.py`.  All three fields are Python ints. -/
structure Version where
  major : Int
  minor : Int
  patch : Int
deriving Repr, DecidableEq

/-- `Version.__init__` on a single string argument: the string is split on
`'.'`, the first three fields are indexed (an out-of-range index raises
`IndexError`) and converted with `int()` (a non-numeric field raises
`ValueError`).  Any further fields are ignored. -/
def Version.ofString (s : String) : Except PyError Version :=
  let parts := splitOnChar '.' s.data
  match parts[0]? with
  | none => .error (.indexError "list index out of range")
  | some p0 =>
    match pyIntOfString ⟨p0⟩ 10 with
    | none => .error (.valueError "invalid literal for int() with base 10")
    | some a =>
      match parts[1]? with
      | none => .error (.indexError "list index out of range")
      | some p1 =>
        match pyIntOfString ⟨p1⟩ 10 with
        | none => .error (.valueError "invalid literal for int() with base 10")
        | some b =>
          match parts[2]? with
          | none => .error (.indexError "list index out of range")
          | some p2 =>
            match pyIntOfString ⟨p2⟩ 10 with
            | none => .error (.valueError "invalid literal for int() with base 10")
            | some c => .ok ⟨a, b, c⟩

/-- `Version.__repr__`: the canonical `"{major}.{minor}.{patch}"` string
produced with `%i` formatting. -/
def Version.repr (v : Version) : String :=
  ⟨intToChars v.major ++ '.' :: (intToChars v.minor ++ '.' :: intToChars v.patch)⟩

/-- The attributes a `Version` instance exposes besides the three integer
fields `major`/`minor`/`patch`: the methods the class defines (`bump` and
the comparison/indexing/repr dunders) together with the attributes every
CPython 3 object inherits, as enumerated by `dir()` on such an instance
(CPython 3.11; `__hash__` is present but `None` because the class defines
`__eq__` without `__hash__`).  None of these values is an integer. -/
def versionAttrNames : List String :=
  ["bump", "__init__", "__gt__", "__ge__", "__lt__", "__le__", "__eq__", "__ne__",
   "__getitem__", "__repr__", "__class__", "__delattr__", "__dict__", "__dir__",
   "__doc__", "__format__", "__getattribute__", "__getstate__", "__hash__",
   "__init_subclass__", "__module__", "__new__", "__reduce__", "__reduce_ex__",
   "__setattr__", "__sizeof__", "__str__", "__subclasshook__", "__weakref__"]

/-- `Version.bump(category)`: `setattr(self, category, getattr(self,
category) + 1)`, then the documented resets.  For the three integer data
attributes the increment succeeds.  For a category naming any *other*
existing attribute of the instance (a method or an inherited object
attribute — all non-integers), `getattr` succeeds and the `+ 1` raises
`TypeError`.  For a category naming no attribute at all, `getattr` raises
`AttributeError`.  The code defines no dedicated invalid-category
exception. -/
def Version.bump (v : Version) (category : String) : Except PyError Version :=
  if category = "major" then .ok ⟨v.major + 1, 0, 0⟩
  else if category = "minor" then .ok ⟨v.major, v.minor + 1, 0⟩
  else if category = "patch" then .ok ⟨v.major, v.minor, v.patch + 1⟩
  else if versionAttrNames.contains category then
    .error (.typeError "unsupported operand type(s) for +")
  else .error (.attributeError category)

/-- `tuple(self)` for a `Version`: `__getitem__` exposes exactly indices
0, 1, 2 and raises `IndexError` afterwards, so iteration produces the
three-field tuple.  `GitVersion` does not override `__getitem__`, so its
tuple is the same triple. -/
def Version.toTuple (v : Version) : Int × Int × Int := (v.major, v.minor, v.patch)

/-- Python's `<` on equal-length int 3-tuples (lexicographic). -/
def pyTupleLt (x y : Int × Int × Int) : Bool :=
  decide (x.1 < y.1) ||
    (decide (x.1 = y.1) &&
      (decide (x.2.1 < y.2.1) ||
        (decide (x.2.1 = y.2.1) && decide (x.2.2 < y.2.2))))

/-- Python's `>` on equal-length int 3-tuples. -/
def pyTupleGt (x y : Int × Int × Int) : Bool :=
  decide (x.1 > y.1) ||
    (decide (x.1 = y.1) &&
      (decide (x.2.1 > y.2.1) ||
        (decide (x.2.1 = y.2.1) && decide (x.2.2 > y.2.2))))

/-- Python's `<=` on equal-length int 3-tuples. -/
def pyTupleLe (x y : Int × Int × Int) : Bool :=
  decide (x.1 < y.1) ||
    (decide (x.1 = y.1) &&
      (decide (x.2.1 < y.2.1) ||
        (decide (x.2.1 = y.2.1) && decide (x.2.2 ≤ y.2.2))))

/-- Python's `>=` on equal-length int 3-tuples. -/
def pyTupleGe (x y : Int × Int × Int) : Bool :=
  decide (x.1 > y.1) ||
    (decide (x.1 = y.1) &&
      (decide (x.2.1 > y.2.1) ||
        (decide (x.2.1 = y.2.1) && decide (x.2.2 ≥ y.2.2))))

/-- Python's `==` on equal-length int 3-tuples. -/
def pyTupleEq (x y : Int × Int × Int) : Bool :=
  decide (x.1 = y.1) && decide (x.2.1 = y.2.1) && decide (x.2.2 = y.2.2)

/-- `Version.__lt__`: `tuple(self) < tuple(other)`. -/
def Version.lt (x y : Version) : Bool := pyTupleLt x.toTuple y.toTuple

/-- `Version.__gt__`: `tuple(self) > tuple(other)`. -/
def Version.gt (x y : Version) : Bool := pyTupleGt x.toTuple y.toTuple

/-- `Version.__le__`: `tuple(self) <= tuple(other)`. -/
def Version.le (x y : Version) : Bool := pyTupleLe x.toTuple y.toTuple

/-- `Version.__ge__`: `tuple(self) >= tuple(other)`. -/
def Version.ge (x y : Version) : Bool := pyTupleGe x.toTuple y.toTuple

/-- `Version.__eq__`: `tuple(self) == tuple(other)`. -/
def Version.eq (x y : Version) : Bool := pyTupleEq x.toTuple y.toTuple

/-- `Version.__ne__`: `tuple(self) != tuple(other)`. -/
def Version.ne (x y : Version) : Bool := !pyTupleEq x.toTuple y.toTuple

/-- A fully initialised git-repository version object: something exposing
`major`, `minor`, `patch`, `commit` and `dirty` attributes, such as a
`GitVersion` produced by `get_latest_git_tag_version` or a compatible named
tuple. -/
structure GitVersionData where
  major : Int
  minor : Int
  patch : Int
  commit : String
  dirty : Bool
deriving Repr, DecidableEq

/-- The object produced by `GitVersion.__init__`.  The `commit` and `dirty`
instance attributes are only assigned inside the `except (AttributeError,
TypeError)` handler of the constructor, so on some construction paths they
are never set; `none` models an attribute that was never assigned (reading
it would raise `AttributeError`). -/
structure GitVersion where
  major : Int
  minor : Int
  patch : Int
  commit? : Option String
  dirty? : Option Bool
deriving Repr, DecidableEq

/-- The final validation of `GitVersion.__init__`: `int(self.commit, 16)`
must succeed, otherwise `ValueError('The git commit string is not
hexidecimal: %s' % self.commit)` is raised. -/
def GitVersion.finishHexCheck (a b c : Int) (commit : String) (dirty : Bool) :
    Except PyError GitVersion :=
  match pyIntOfString commit 16 with
  | none => .error (.valueError ("The git commit string is not hexidecimal: " ++ commit))
  | some _ => .ok ⟨a, b, c, some commit, some dirty⟩

/-- `GitVersion.__init__` on a single string argument, e.g.
`GitVersion('1.2.3.abcdef01-dirty')`.  After `Version.__init__` parses the
first three dotted fields, the constructor evaluates
`version = k[0].split('.')[3]` — a *string*, not a list.  Consequently
`self.commit = str(version[0])` takes the first character of the suffix and
`bool(version[1])` is the truthiness of its second character (a non-empty
one-character string, hence `True`) whenever the suffix has length at least
two; a missing fourth field raises an uncaught `IndexError`. -/
def GitVersion.ofString (s : String) : Except PyError GitVersion := do
  let v ← Version.ofString s
  let parts := splitOnChar '.' s.data
  match parts[3]? with
  | none => .error (.indexError "list index out of range")
  | some suffix =>
    match suffix[0]? with
    | none => .error (.indexError "string index out of range")
    | some c0 =>
      let commit0 : String := ⟨[c0]⟩
      match suffix[1]? with
      | some _ =>
        -- bool(version[1]) succeeds: a one-character string is truthy
        GitVersion.finishHexCheck v.major v.minor v.patch commit0 true
      | none =>
        -- IndexError from version[1]: fall back to splitting commit on '-'
        let split := splitOnChar '-' commit0.data
        match split[1]? with
        | some s1 =>
          GitVersion.finishHexCheck v.major v.minor v.patch
            ⟨split.headI⟩ (decide (s1 = "dirty".data))
        | none =>
          GitVersion.finishHexCheck v.major v.minor v.patch commit0 false

/-- `GitVersion.__init__` on an argument exposing `commit` and `dirty`
attributes (another `GitVersion`, or a compatible named tuple):
`Version.__init__` copies the numeric triple from the attributes, but in
the subclass constructor the statement `version = (k[0].commit, k[0].dirty)`
*succeeds*, so the whole `except (AttributeError, TypeError)` handler —
which contains every assignment to `self.commit` and `self.dirty` — is
skipped, and neither attribute is ever set on the new object. -/
def GitVersion.ofObj (g : GitVersionData) : GitVersion :=
  { major := g.major, minor := g.minor, patch := g.patch,
    commit? := none, dirty? := none }

/-- `GitVersion.__init__` on five positional arguments
`GitVersion(a, b, c, commit, dirty)`: the attribute/keyword/mapping lookups
all fail, the argument is not a string and not indexable, so
`version = k[3:] = (commit, dirty)`; `self.commit = str(commit)`,
`self.dirty = bool(dirty)`, then the hexadecimal check. -/
def GitVersion.ofParts5 (a b c : Int) (commit : String) (dirty : Bool) :
    Except PyError GitVersion :=
  GitVersion.finishHexCheck a b c commit dirty

/-- `GitVersion.__init__` on four positional arguments
`GitVersion(a, b, c, commit)`: `version = k[3:] = (commit,)`, so
`version[1]` raises `IndexError`, and the handler splits the commit string
on `'-'`: a second field equal to `'dirty'` sets the dirty flag and keeps
the first field as the commit; with no second field the commit stands and
`dirty = False`. -/
def GitVersion.ofParts4 (a b c : Int) (commit : String) : Except PyError GitVersion :=
  let split := splitOnChar '-' commit.data
  match split[1]? with
  | some s1 =>
    GitVersion.finishHexCheck a b c ⟨split.headI⟩ (decide (s1 = "dirty".data))
  | none =>
    GitVersion.finishHexCheck a b c commit false

/-- `GitVersion.__init__` on a dictionary carrying all five keys:
the triple, commit and dirty are read from the mapping, then the
hexadecimal check runs. -/
def GitVersion.ofDict (a b c : Int) (commit : String) (dirty : Bool) :
    Except PyError GitVersion :=
  GitVersion.finishHexCheck a b c commit dirty

/-- `tuple(self)` for a `GitVersion` object: `__getitem__` is inherited
from `Version`, so only the numeric triple is exposed to the comparison
operators. -/
def GitVersionData.toTuple (g : GitVersionData) : Int × Int × Int :=
  (g.major, g.minor, g.patch)

/-- `GitVersion.__lt__` (inherited): `tuple(self) < tuple(other)`. -/
def GitVersionData.lt (x y : GitVersionData) : Bool := pyTupleLt x.toTuple y.toTuple

/-- `GitVersion.__gt__` (inherited). -/
def GitVersionData.gt (x y : GitVersionData) : Bool := pyTupleGt x.toTuple y.toTuple

/-- `GitVersion.__le__` (inherited). -/
def GitVersionData.le (x y : GitVersionData) : Bool := pyTupleLe x.toTuple y.toTuple

/-- `GitVersion.__ge__` (inherited). -/
def GitVersionData.ge (x y : GitVersionData) : Bool := pyTupleGe x.toTuple y.toTuple

/-- `GitVersion.__eq__` (inherited). -/
def GitVersionData.eq (x y : GitVersionData) : Bool := pyTupleEq x.toTuple y.toTuple

/-- `GitVersion.__ne__` (inherited). -/
def GitVersionData.ne (x y : GitVersionData) : Bool := !pyTupleEq x.toTuple y.toTuple

/-- Python's `str.startswith(pre)`: character-list prefix test. -/
def pyStartsWith (s pre : String) : Bool := pre.data.isPrefixOf s.data

/-- `write_changelog(path, changelog)`.  The file is modelled by
`existing`: `none` when the path does not exist (the `fileinput` loop
raises `ENOENT`, caught, and the file is created as
`'# Changelog\n\n' + changelog`); `some lines` when it exists, `lines`
being its lines with their trailing newlines, as `fileinput` yields them.
In the update branch every line is echoed unchanged, and after each line
that starts with `'# Changelog'` the loop emits `print()` (a newline)
followed by the new entry. -/
def write_changelog (existing : Option (List String)) (changelog : String) : String :=
  match existing with
  | some lines =>
    String.join (lines.map fun line =>
      line ++ if pyStartsWith line "# Changelog" then "\n" ++ changelog else "")
  | none => "# Changelog\n\n" ++ changelog

/-- A GitHub milestone as returned by the `GET /repos/{repo}/milestones`
endpoint: the fields `release` and `get_version_milestone` consume. -/
structure Milestone where
  number : Int
  title : String
  state : String
  open_issues : Int
deriving Repr, DecidableEq

/-- `get_version_milestone(version, repo, token)`: keep the open milestones
whose title is `'v%s' % version` and return the first, or `None` when the
list comprehension raises `IndexError` on `[0]`. -/
def get_version_milestone (milestones : List Milestone) (v : Version) : Option Milestone :=
  (milestones.filter fun m =>
    m.title == "v" ++ v.repr && m.state == "open").head?

/-- The read-only collaborators of `release`, supplied as an environment:
the parsed `git --version`, the repository version derived from the latest
tag (`get_latest_git_tag_version`), the `owner/name` string derived from
the `origin` remote (`get_github_repo`), the milestone list from the forge,
and the changelog text produced by `create_changelog`'s template rendering
for a (current, previous, description, repo) quadruple. -/
structure Env where
  gitVersion : Version
  previousVersion : GitVersionData
  githubRepo : String
  milestones : List Milestone
  renderChangelog : Version → Version → String → String → String

/-- The state-mutating steps a release run performs, in order: file writes,
commits, tag creation, pushes, and the remote forge writes. -/
inductive Effect where
  | writeChangelogFile (path : String) (entry : String)
  | commitFile (path : String) (message : String)
  | writeVersionFile (path : String) (content : String)
  | createTag (name : String) (message : String)
  | push
  | pushTags
  | createRelease (tagName : String) (name : String) (body : String)
  | closeMilestone (number : Int)
deriving Repr, DecidableEq

/-- `os.path.join(path, name)` for a relative `name` (POSIX model). -/
def pyPathJoin (path name : String) : String := path ++ "/" ++ name

/-- The effect sequence of a release run that has passed every guard:
write and commit the changelog, write and commit the version file, create
the annotated tag, push the branch, push the tags, create the GitHub
release, and close the matched milestone if there is one. -/
def releaseEffects (current previousV : Version) (description repo : String)
    (milestone : Option Milestone) (changelogHook : String → String)
    (env : Env) (path changelogFile versionFile : String) : List Effect :=
  let changelogData :=
    changelogHook (env.renderChangelog current previousV description repo)
  [Effect.writeChangelogFile (pyPathJoin path changelogFile) changelogData,
   Effect.commitFile changelogFile ("Updated changelog for v" ++ current.repr),
   Effect.writeVersionFile (pyPathJoin path versionFile) current.repr,
   Effect.commitFile versionFile ("Updated version to v" ++ current.repr),
   Effect.createTag ("v" ++ current.repr) description,
   Effect.push,
   Effect.pushTags,
   Effect.createRelease ("v" ++ current.repr) current.repr changelogData]
  ++ (match milestone with
      | some m => [Effect.closeMilestone m.number]
      | none => [])

/-- `release(category, path, ...)` from `src/pygh/__init__.py`, as a
function from the environment to either a raised exception or completion,
paired with the trace of state-mutating steps actually performed.  The
statements are modelled in source order: the git-version guard, the dirty
guard, the version bump (`Version(previous_version)` copies the triple via
the attribute path, and `bump` can raise `AttributeError`), the
`repo or get_github_repo(...)` and `description or ...` defaults (the
default description indexes `repo.split('/')[1]`), the open-milestone
guard, then the changelog hook and the effect sequence. -/
def release (env : Env) (category : String) (descriptionArg : Option String)
    (repoArg : Option String) (changelogHook : String → String)
    (path changelogFile versionFile : String) :
    Except PyError Unit × List Effect :=
  if pyTupleLt env.gitVersion.toTuple (1, 0, 0) then
    (.error (.releaseError ("The version of git is too old " ++ env.gitVersion.repr)), [])
  else
    let previous := env.previousVersion
    if previous.dirty then
      (.error (.releaseError
        "Cannot release a dirty repository. Make sure all files are committed"), [])
    else
      let current0 : Version := ⟨previous.major, previous.minor, previous.patch⟩
      let previousV : Version := current0
      match current0.bump category with
      | .error e => (.error e, [])
      | .ok current =>
        let repo := match repoArg with
          | some r => r
          | none => env.githubRepo
        let descriptionResult : Except PyError String :=
          match descriptionArg with
          | some d => .ok d
          | none =>
            match (splitOnChar '/' repo.data)[1]? with
            | none => .error (.indexError "list index out of range")
            | some nm =>
              .ok ("The v" ++ current.repr ++ " release of " ++ (⟨nm⟩ : String))
        match descriptionResult with
        | .error e => (.error e, [])
        | .ok description =>
          match get_version_milestone env.milestones current with
          | some m =>
            if m.open_issues ≠ 0 then
              (.error (.releaseError ("The v" ++ current.repr ++ " milestone has " ++
                (⟨intToChars m.open_issues⟩ : String) ++ " open issues")), [])
            else
              (.ok (), releaseEffects current previousV description repo (some m)
                changelogHook env path changelogFile versionFile)
          | none =>
            (.ok (), releaseEffects current previousV description repo none
              changelogHook env path changelogFile versionFile)

/-- Recognises the module's `ReleaseError` among raised exceptions. -/
def isReleaseError : Except PyError Unit → Bool
  | .error (.releaseError _) => true
  | _ => false

/-! ## Supporting lemmas -/

/-- Folding string concatenation from an arbitrary accumulator. -/
theorem foldlAppendEq (l : List String) : ∀ s, l.foldl (· ++ ·) s = s ++ String.join l := by
  induction l with
  | nil => intro s; simp [String.join, String.append_empty]
  | cons x xs ih =>
    intro s
    show List.foldl (· ++ ·) (s ++ x) xs = s ++ String.join (x :: xs)
    rw [ih (s ++ x)]
    have h : String.join (x :: xs) = x ++ String.join xs := by
      show List.foldl (· ++ ·) ("" ++ x) xs = _
      rw [String.empty_append, ih x]
    rw [h, String.append_assoc]

/-- `String.join` distributes over list append. -/
theorem joinAppendEq (l1 l2 : List String) :
    String.join (l1 ++ l2) = String.join l1 ++ String.join l2 := by
  show List.foldl (· ++ ·) "" (l1 ++ l2) = _
  rw [List.foldl_append, foldlAppendEq l2]
  rfl

/-- `String.join` on a cons cell. -/
theorem joinConsEq (x : String) (xs : List String) :
    String.join (x :: xs) = x ++ String.join xs := by
  show List.foldl (· ++ ·) ("" ++ x) xs = _
  rw [String.empty_append, foldlAppendEq xs]

/-- Lines that do not carry the changelog heading are echoed unchanged by
the `write_changelog` update loop. -/
theorem mapEchoEq (changelog : String) (lines : List String)
    (hnone : ∀ l ∈ lines, pyStartsWith l "# Changelog" = false) :
    (lines.map fun line =>
      line ++ if pyStartsWith line "# Changelog" then "\n" ++ changelog else "") = lines := by
  have hfix : ∀ a ∈ lines,
      (a ++ if pyStartsWith a "# Changelog" then "\n" ++ changelog else "") = a := by
    intro a ha
    rw [if_neg (by simp [hnone a ha]), String.append_empty]
  rw [List.map_congr_left hfix]
  simp

/-- Character value of a rendered decimal digit. -/
theorem digitToChar_val {d : Nat} (hd : d < 10) : hexDigitVal (digitToChar d) = d := by
  interval_cases d <;> rfl

/-- Every character of a rendered numeral is a rendered decimal digit. -/
theorem natToChars_mem {n : Nat} {c : Char} (hc : c ∈ natToChars n) :
    ∃ d, d < 10 ∧ c = digitToChar d := by
  unfold natToChars at hc
  by_cases h0 : n = 0
  · rw [if_pos h0] at hc
    simp at hc
    exact ⟨0, by omega, hc⟩
  · rw [if_neg h0] at hc
    obtain ⟨d, hd, rfl⟩ := List.mem_map.mp hc
    exact ⟨d, Nat.digits_lt_base (by norm_num) (List.mem_reverse.mp hd), rfl⟩

/-- Characters of a rendered numeral are decimal digits and in particular
are not separators, signs, underscores or whitespace. -/
theorem natToChars_facts (n : Nat) : ∀ c ∈ natToChars n,
    hexDigitVal c < 10 ∧ c ≠ '_' ∧ c ≠ '.' ∧ c ≠ '+' ∧ c ≠ '-' ∧ c ≠ '/' ∧
    isPySpace c = false := by
  intro c hc
  obtain ⟨d, hd, rfl⟩ := natToChars_mem hc
  interval_cases d <;> exact (by decide)

/-- A rendered numeral is never empty. -/
theorem natToChars_ne_nil (n : Nat) : natToChars n ≠ [] := by
  unfold natToChars
  by_cases h0 : n = 0
  · rw [if_pos h0]; simp
  · rw [if_neg h0]
    simp [Nat.digits_ne_nil_iff_ne_zero.mpr h0]

/-- `dropWhile` is the identity when the head never satisfies the test. -/
theorem dropWhile_of_all_neg {p : Char → Bool} {cs : List Char}
    (h : ∀ c ∈ cs, p c = false) : cs.dropWhile p = cs := by
  cases cs with
  | nil => rfl
  | cons c rest => rw [List.dropWhile_cons_of_neg (by simp [h c (by simp)])]

/-- Stripping is the identity on whitespace-free text. -/
theorem pyStrip_of_no_space {cs : List Char} (h : ∀ c ∈ cs, isPySpace c = false) :
    pyStrip cs = cs := by
  unfold pyStrip
  rw [dropWhile_of_all_neg h,
    dropWhile_of_all_neg (fun c hc => h c (List.mem_reverse.mp hc)), List.reverse_reverse]

/-- On underscore-free decimal digit runs the scanner is a left fold. -/
theorem goDigits_all_digits {cs : List Char}
    (h : ∀ c ∈ cs, hexDigitVal c < 10 ∧ c ≠ '_') :
    ∀ acc, goDigits 10 cs acc =
      some (cs.foldl (fun a c => a * 10 + hexDigitVal c) acc) := by
  induction cs with
  | nil => intro acc; rfl
  | cons c rest ih =>
    intro acc
    have hc := h c (by simp)
    unfold goDigits
    rw [if_neg hc.2, if_pos hc.1, ih (fun x hx => h x (by simp [hx]))]
    rfl

/-- On non-empty underscore-free decimal digit runs the parser is a left
fold from zero. -/
theorem parseDigitsBase_all_digits {cs : List Char} (hne : cs ≠ [])
    (h : ∀ c ∈ cs, hexDigitVal c < 10 ∧ c ≠ '_') :
    parseDigitsBase 10 cs = some (cs.foldl (fun a c => a * 10 + hexDigitVal c) 0) := by
  cases cs with
  | nil => exact absurd rfl hne
  | cons c rest =>
    have hc := h c (by simp)
    show (if hexDigitVal c < 10 then goDigits 10 rest (hexDigitVal c) else none) = _
    rw [if_pos hc.1, goDigits_all_digits (fun x hx => h x (by simp [hx])) (hexDigitVal c)]
    rw [List.foldl_cons]
    congr 2
    omega

/-- Folding most-significant-first digits recovers `Nat.ofDigits`. -/
theorem foldl_rev_digits (L : List Nat) :
    ∀ a, (L.reverse).foldl (fun x d => x * 10 + d) a =
      a * 10 ^ L.length + Nat.ofDigits 10 L := by
  induction L with
  | nil => intro a; simp [Nat.ofDigits]
  | cons d L ih =>
    intro a
    rw [List.reverse_cons, List.foldl_append, ih a]
    simp only [List.foldl_cons, List.foldl_nil, Nat.ofDigits_cons, List.length_cons]
    ring

/-- Folding the digit values of a rendered numeral recovers the number. -/
theorem natToChars_foldl (n : Nat) :
    (natToChars n).foldl (fun a c => a * 10 + hexDigitVal c) 0 = n := by
  unfold natToChars
  by_cases h0 : n = 0
  · rw [if_pos h0, h0]; rfl
  · rw [if_neg h0, List.foldl_map]
    have hext : ∀ (a : Nat), ∀ d ∈ (Nat.digits 10 n).reverse,
        (fun a c => a * 10 + hexDigitVal (digitToChar c)) a d = (fun a d => a * 10 + d) a d := by
      intro a d hd
      show a * 10 + hexDigitVal (digitToChar d) = a * 10 + d
      rw [digitToChar_val (Nat.digits_lt_base (by norm_num) (List.mem_reverse.mp hd))]
    rw [List.foldl_ext (fun a c => a * 10 + hexDigitVal (digitToChar c)) (fun a d => a * 10 + d)
      0 hext]
    rw [foldl_rev_digits, Nat.ofDigits_digits]
    omega

/-- Sign splitting is the identity on text with no leading sign. -/
theorem signSplit_no_sign {c : Char} {rest : List Char} (h1 : c ≠ '+') (h2 : c ≠ '-') :
    signSplit (c :: rest) = (1, c :: rest) := by
  show (if c = '+' then ((1 : Int), rest)
        else if c = '-' then ((-1 : Int), rest)
        else ((1 : Int), c :: rest)) = ((1 : Int), c :: rest)
  rw [if_neg h1, if_neg h2]

/-- `int()` in base 10 inverts `%i` rendering of naturals. -/
theorem pyIntOfString_natToChars (n : Nat) :
    pyIntOfString ⟨natToChars n⟩ 10 = some (n : Int) := by
  have hall := natToChars_facts n
  obtain ⟨c, rest, hcons⟩ : ∃ c rest, natToChars n = c :: rest := by
    cases hnc : natToChars n with
    | nil => exact absurd hnc (natToChars_ne_nil n)
    | cons c rest => exact ⟨c, rest, rfl⟩
  have hcf := hall c (by rw [hcons]; exact List.mem_cons_self c rest)
  have hdata : (⟨natToChars n⟩ : String).data = natToChars n := rfl
  unfold pyIntOfString
  rw [hdata, pyStrip_of_no_space (fun x hx => (hall x hx).2.2.2.2.2.2)]
  rw [if_neg (by norm_num), hcons, signSplit_no_sign hcf.2.2.2.1 hcf.2.2.2.2.1]
  show (parseDigitsBase 10 (c :: rest)).map (fun n => 1 * Int.ofNat n) = _
  rw [← hcons,
    parseDigitsBase_all_digits (natToChars_ne_nil n)
      (fun x hx => ⟨(hall x hx).1, (hall x hx).2.1⟩),
    natToChars_foldl]
  simp

/-- Splitting separator-free text yields a single field. -/
theorem splitOnChar_of_not_mem {sep : Char} {A : List Char} (h : sep ∉ A) :
    splitOnChar sep A = [A] := by
  induction A with
  | nil => rfl
  | cons c cs ih =>
    have hc : ¬c = sep := fun hcs => h (hcs ▸ List.mem_cons_self c cs)
    conv_lhs => unfold splitOnChar
    rw [if_neg hc, ih (fun hm => h (List.mem_cons_of_mem c hm))]

/-- Splitting peels off a separator-free first field. -/
theorem splitOnChar_append {sep : Char} {A B : List Char} (h : sep ∉ A) :
    splitOnChar sep (A ++ sep :: B) = A :: splitOnChar sep B := by
  induction A with
  | nil =>
    show splitOnChar sep (sep :: B) = [] :: splitOnChar sep B
    conv_lhs => unfold splitOnChar
    rw [if_pos rfl]
  | cons c cs ih =>
    have hc : ¬c = sep := fun hcs => h (hcs ▸ List.mem_cons_self c cs)
    show splitOnChar sep (c :: (cs ++ sep :: B)) = _
    conv_lhs => unfold splitOnChar
    rw [if_neg hc, ih (fun hm => h (List.mem_cons_of_mem c hm))]

/-- `%i` rendering of a cast natural is the natural's rendering. -/
theorem intToChars_natCast (a : Nat) : intToChars (a : Int) = natToChars a := by
  unfold intToChars
  rw [if_neg (by omega), Int.toNat_natCast]

/-- Constructing a `Version` from the canonical rendering of a non-negative
triple recovers the triple. -/
theorem version_ofString_canonical (a b c : Nat) :
    Version.ofString (Version.repr ⟨(a : Int), (b : Int), (c : Int)⟩) =
      .ok ⟨(a : Int), (b : Int), (c : Int)⟩ := by
  have hdot : ∀ m : Nat, '.' ∉ natToChars m := by
    intro m hm
    exact absurd rfl (natToChars_facts m '.' hm).2.2.1
  have hsplit : splitOnChar '.' (Version.repr ⟨(a : Int), (b : Int), (c : Int)⟩).data =
      [natToChars a, natToChars b, natToChars c] := by
    show splitOnChar '.'
      (intToChars (a : Int) ++ '.' :: (intToChars (b : Int) ++ '.' :: intToChars (c : Int))) = _
    rw [intToChars_natCast, intToChars_natCast, intToChars_natCast,
      splitOnChar_append (hdot a), splitOnChar_append (hdot b),
      splitOnChar_of_not_mem (hdot c)]
  unfold Version.ofString
  rw [hsplit]
  simp only [List.getElem?_cons_zero, List.getElem?_cons_succ, pyIntOfString_natToChars]

/-! ## Claim theorems -/

/-- C1 (code bug): the claimed combined-string parsing algorithm is *not*
what `GitVersion.__init__` implements.  Because `k[0].split('.')[3]` is a
string and not a list, `GitVersion("1.2.3.abcdef01-dirty")` ends up with
commit `"a"` (the first character of the suffix) and `dirty = True` (the
truthiness of the one-character string `"b"`), instead of the documented
commit `"abcdef01"` with the `-dirty` marker split off; the same happens
without the marker, where the claim requires `dirty = False`; and a string
with no fourth field raises an uncaught `IndexError` instead of defaulting
to the 40-zero sentinel.  This theorem evaluates the constructor at the
failing inputs. -/
theorem gitVersion_string_parse_bug :
    GitVersion.ofString "1.2.3.abcdef01-dirty" =
      .ok { major := 1, minor := 2, patch := 3, commit? := some "a", dirty? := some true } ∧
    GitVersion.ofString "1.2.3.abcdef01" =
      .ok { major := 1, minor := 2, patch := 3, commit? := some "a", dirty? := some true } ∧
    GitVersion.ofString "1.2.3" = .error (.indexError "list index out of range") :=
  ⟨rfl, rfl, rfl⟩

/-- C2 (code bug): copy construction does not canonicalise.  For an
argument exposing all five attributes the statement
`version = (k[0].commit, k[0].dirty)` succeeds, so the `except` handler
holding every assignment to `self.commit` and `self.dirty` is skipped:
the numeric triple is copied but the commit and dirty attributes of the
new object are never set (reading them raises `AttributeError`), contrary
to the claim that they equal those of the source object. -/
theorem gitVersion_copy_construction_bug :
    GitVersion.ofObj ⟨1, 2, 3, "abcdef01", true⟩ =
      { major := 1, minor := 2, patch := 3, commit? := none, dirty? := none } ∧
    ∀ g : GitVersionData,
      GitVersion.ofObj g = { major := g.major, minor := g.minor, patch := g.patch,
                             commit? := none, dirty? := none } :=
  ⟨rfl, fun _ => rfl⟩

/-- C3: whenever the previous repository version is dirty, `release` stops
with a `ReleaseError` (either the dirty guard or, if the git version is
also below 1.0.0, the earlier tool guard) and the trace of state-mutating
steps — changelog write, file commits, tag creation, pushes, forge writes —
is empty. -/
theorem release_dirty_guard (env : Env) (category : String) (dArg rArg : Option String)
    (hook : String → String) (path cf vf : String)
    (hdirty : env.previousVersion.dirty = true) :
    (release env category dArg rArg hook path cf vf).2 = [] ∧
    isReleaseError (release env category dArg rArg hook path cf vf).1 = true := by
  unfold release
  cases hguard : pyTupleLt env.gitVersion.toTuple (1, 0, 0) with
  | true => simp [hguard, isReleaseError]
  | false => simp [hguard, hdirty, isReleaseError]

/-- Witness for C3: a concrete dirty repository state makes `release`
fail with a `ReleaseError` having performed no effect. -/
theorem release_dirty_guard_witness :
    (release ⟨⟨2, 30, 0⟩, ⟨1, 2, 3, "abcdef", true⟩, "owner/repo", [], fun _ _ _ _ => ""⟩
      "minor" none none id "." "CHANGELOG.md" "VERSION").2 = [] ∧
    isReleaseError (release ⟨⟨2, 30, 0⟩, ⟨1, 2, 3, "abcdef", true⟩, "owner/repo", [],
      fun _ _ _ _ => ""⟩ "minor" none none id "." "CHANGELOG.md" "VERSION").1 = true :=
  release_dirty_guard _ "minor" none none id "." "CHANGELOG.md" "VERSION" rfl

/-- C4: `bump("major")` increments major and zeroes minor and patch,
`bump("minor")` increments minor and zeroes patch, `bump("patch")`
increments patch only; on `(1,5,9)` the results are `(2,0,0)`, `(1,6,0)`
and `(1,5,10)`. -/
theorem bump_categories (a b c : Int) :
    Version.bump ⟨a, b, c⟩ "major" = .ok ⟨a + 1, 0, 0⟩ ∧
    Version.bump ⟨a, b, c⟩ "minor" = .ok ⟨a, b + 1, 0⟩ ∧
    Version.bump ⟨a, b, c⟩ "patch" = .ok ⟨a, b, c + 1⟩ ∧
    Version.bump ⟨1, 5, 9⟩ "major" = .ok ⟨2, 0, 0⟩ ∧
    Version.bump ⟨1, 5, 9⟩ "minor" = .ok ⟨1, 6, 0⟩ ∧
    Version.bump ⟨1, 5, 9⟩ "patch" = .ok ⟨1, 5, 10⟩ :=
  ⟨rfl, rfl, rfl, rfl, rfl, rfl⟩

/-- C5: for all non-negative integers, constructing a `Version` from the
canonical `"{major}.{minor}.{patch}"` string recovers the triple, and
re-rendering yields the identical string. -/
theorem version_string_roundtrip (a b c : Nat) :
    Version.ofString (Version.repr ⟨(a : Int), (b : Int), (c : Int)⟩) =
      .ok ⟨(a : Int), (b : Int), (c : Int)⟩ ∧
    (Version.ofString (Version.repr ⟨(a : Int), (b : Int), (c : Int)⟩)).map Version.repr =
      .ok (Version.repr ⟨(a : Int), (b : Int), (c : Int)⟩) := by
  have h := version_ofString_canonical a b c
  exact ⟨h, by rw [h]; rfl⟩

/-- C6: the six comparison operators implement the lexicographic total
order on the `(major, minor, patch)` triple — `<` agrees with the explicit
lexicographic predicate, the other five are its standard companions, and
the order is total and asymmetric; `GitVersion` comparisons are exactly
the comparisons of the numeric triples, so two repository versions with
the same triple compare equal whatever their commit or dirty values; and
`1.0.0 < 1.0.1 < 1.1.0 < 2.0.0`. -/
theorem version_comparisons_lex :
    (∀ x y : Version, Version.lt x y = true ↔
      (x.major < y.major ∨ (x.major = y.major ∧
        (x.minor < y.minor ∨ (x.minor = y.minor ∧ x.patch < y.patch))))) ∧
    (∀ x y : Version, Version.gt x y = Version.lt y x) ∧
    (∀ x y : Version, Version.le x y = (Version.lt x y || Version.eq x y)) ∧
    (∀ x y : Version, Version.ge x y = Version.le y x) ∧
    (∀ x y : Version, Version.eq x y = true ↔
      (x.major = y.major ∧ x.minor = y.minor ∧ x.patch = y.patch)) ∧
    (∀ x y : Version, Version.ne x y = !Version.eq x y) ∧
    (∀ x y : Version, Version.lt x y = true ∨ Version.eq x y = true ∨ Version.lt y x = true) ∧
    (∀ x y : Version, (Version.lt x y && Version.lt y x) = false) ∧
    (∀ g1 g2 : GitVersionData,
      GitVersionData.lt g1 g2 =
        Version.lt ⟨g1.major, g1.minor, g1.patch⟩ ⟨g2.major, g2.minor, g2.patch⟩ ∧
      GitVersionData.gt g1 g2 =
        Version.gt ⟨g1.major, g1.minor, g1.patch⟩ ⟨g2.major, g2.minor, g2.patch⟩ ∧
      GitVersionData.le g1 g2 =
        Version.le ⟨g1.major, g1.minor, g1.patch⟩ ⟨g2.major, g2.minor, g2.patch⟩ ∧
      GitVersionData.ge g1 g2 =
        Version.ge ⟨g1.major, g1.minor, g1.patch⟩ ⟨g2.major, g2.minor, g2.patch⟩ ∧
      GitVersionData.eq g1 g2 =
        Version.eq ⟨g1.major, g1.minor, g1.patch⟩ ⟨g2.major, g2.minor, g2.patch⟩ ∧
      GitVersionData.ne g1 g2 =
        Version.ne ⟨g1.major, g1.minor, g1.patch⟩ ⟨g2.major, g2.minor, g2.patch⟩) ∧
    (∀ (a b c : Int) (c1 c2 : String) (d1 d2 : Bool),
      GitVersionData.eq ⟨a, b, c, c1, d1⟩ ⟨a, b, c, c2, d2⟩ = true ∧
      GitVersionData.ne ⟨a, b, c, c1, d1⟩ ⟨a, b, c, c2, d2⟩ = false ∧
      GitVersionData.le ⟨a, b, c, c1, d1⟩ ⟨a, b, c, c2, d2⟩ = true ∧
      GitVersionData.ge ⟨a, b, c, c1, d1⟩ ⟨a, b, c, c2, d2⟩ = true ∧
      GitVersionData.lt ⟨a, b, c, c1, d1⟩ ⟨a, b, c, c2, d2⟩ = false ∧
      GitVersionData.gt ⟨a, b, c, c1, d1⟩ ⟨a, b, c, c2, d2⟩ = false) ∧
    (Version.lt ⟨1, 0, 0⟩ ⟨1, 0, 1⟩ = true ∧ Version.lt ⟨1, 0, 1⟩ ⟨1, 1, 0⟩ = true ∧
      Version.lt ⟨1, 1, 0⟩ ⟨2, 0, 0⟩ = true) := by
  refine ⟨?_, ?_, ?_, ?_, ?_, ?_, ?_, ?_, ?_, ?_, ?_⟩
  · intro x y
    simp only [Version.lt, pyTupleLt, Version.toTuple, Bool.or_eq_true, Bool.and_eq_true,
      decide_eq_true_eq]
  · intro x y
    rw [Bool.eq_iff_iff]
    simp only [Version.gt, Version.lt, pyTupleGt, pyTupleLt, Version.toTuple,
      Bool.or_eq_true, Bool.and_eq_true, decide_eq_true_eq]
    omega
  · intro x y
    rw [Bool.eq_iff_iff]
    simp only [Version.le, Version.lt, Version.eq, pyTupleLe, pyTupleLt, pyTupleEq,
      Version.toTuple, Bool.or_eq_true, Bool.and_eq_true, decide_eq_true_eq]
    omega
  · intro x y
    rw [Bool.eq_iff_iff]
    simp only [Version.ge, Version.le, pyTupleGe, pyTupleLe, Version.toTuple,
      Bool.or_eq_true, Bool.and_eq_true, decide_eq_true_eq]
    omega
  · intro x y
    simp only [Version.eq, pyTupleEq, Version.toTuple, Bool.and_eq_true, decide_eq_true_eq]
    tauto
  · intro x y
    rfl
  · intro x y
    simp only [Version.lt, Version.eq, pyTupleLt, pyTupleEq, Version.toTuple,
      Bool.or_eq_true, Bool.and_eq_true, decide_eq_true_eq]
    omega
  · intro x y
    rw [Bool.eq_false_iff]
    simp only [ne_eq, Bool.and_eq_true, Version.lt, pyTupleLt, Version.toTuple,
      Bool.or_eq_true, decide_eq_true_eq]
    omega
  · intro g1 g2
    exact ⟨rfl, rfl, rfl, rfl, rfl, rfl⟩
  · intro a b c c1 c2 d1 d2
    refine ⟨?_, ?_, ?_, ?_, ?_, ?_⟩ <;>
      simp [GitVersionData.eq, GitVersionData.ne, GitVersionData.le, GitVersionData.ge,
        GitVersionData.lt, GitVersionData.gt, GitVersionData.toTuple,
        pyTupleEq, pyTupleLe, pyTupleGe, pyTupleLt, pyTupleGt]
  · exact ⟨by decide, by decide, by decide⟩

/-- C7: constructing a `GitVersion` whose resulting commit string is
rejected by `int(commit, 16)` fails with the validation `ValueError`,
and a commit accepted by `int(commit, 16)` never triggers that error. -/
theorem gitVersion_commit_hex_validation (a b c : Int) (commit : String) (dirty : Bool) :
    ((pyIntOfString commit 16).isNone = true →
      GitVersion.ofParts5 a b c commit dirty =
        .error (.valueError ("The git commit string is not hexidecimal: " ++ commit))) ∧
    ((pyIntOfString commit 16).isSome = true →
      GitVersion.ofParts5 a b c commit dirty = .ok ⟨a, b, c, some commit, some dirty⟩) := by
  constructor <;> intro h <;>
    unfold GitVersion.ofParts5 GitVersion.finishHexCheck <;>
    cases hp : pyIntOfString commit 16 <;> simp_all

/-- Witness for C7: commit `"xyz"` raises the validation error, commit
`"abcdef01"` is accepted. -/
theorem gitVersion_commit_hex_validation_witness :
    GitVersion.ofParts5 1 2 3 "xyz" false =
      .error (.valueError "The git commit string is not hexidecimal: xyz") ∧
    GitVersion.ofParts5 1 2 3 "abcdef01" true =
      .ok ⟨1, 2, 3, some "abcdef01", some true⟩ :=
  ⟨(gitVersion_commit_hex_validation 1 2 3 "xyz" false).1 (by decide),
   (gitVersion_commit_hex_validation 1 2 3 "abcdef01" true).2 (by decide)⟩

/-- C8 (counterexample): `bump` with an invalid category raises the
built-in `AttributeError` coming from `getattr`, not a dedicated
invalid-category exception — the module defines no `InvalidCategoryError`
class (its own exception classes are `ReleaseError`, `ExecuteCommandError`
and `HttpApiError`). -/
theorem bump_no_invalid_category_error :
    Version.bump ⟨1, 5, 9⟩ "flavor" = .error (.attributeError "flavor") := rfl

/-- C8 (amended): for every category outside {major, minor, patch},
`bump` fails — with `TypeError` when the category names an existing
non-integer attribute of the instance (a method or dunder, where the
`getattr` succeeds and the `+ 1` fails) and with `AttributeError` when it
names no attribute at all, never with a dedicated invalid-category
exception — and for every category in the set it succeeds. -/
theorem bump_invalid_category_fails (v : Version) (category : String) :
    (category ≠ "major" → category ≠ "minor" → category ≠ "patch" →
      ∃ e, Version.bump v category = .error e) ∧
    (category ≠ "major" → category ≠ "minor" → category ≠ "patch" →
      versionAttrNames.contains category = true →
      Version.bump v category = .error (.typeError "unsupported operand type(s) for +")) ∧
    (category ≠ "major" → category ≠ "minor" → category ≠ "patch" →
      versionAttrNames.contains category = false →
      Version.bump v category = .error (.attributeError category)) ∧
    (category = "major" ∨ category = "minor" ∨ category = "patch" →
      ∃ w, Version.bump v category = .ok w) := by
  refine ⟨?_, ?_, ?_, ?_⟩
  · intro h1 h2 h3
    unfold Version.bump
    rw [if_neg h1, if_neg h2, if_neg h3]
    cases hmem : versionAttrNames.contains category
    · rw [if_neg (by simp [hmem])]
      exact ⟨_, rfl⟩
    · rw [if_pos (by simp [hmem])]
      exact ⟨_, rfl⟩
  · intro h1 h2 h3 hmem
    unfold Version.bump
    rw [if_neg h1, if_neg h2, if_neg h3, if_pos hmem]
  · intro h1 h2 h3 hmem
    unfold Version.bump
    rw [if_neg h1, if_neg h2, if_neg h3, if_neg (ne_true_of_eq_false hmem)]
  · rintro (rfl | rfl | rfl)
    · exact ⟨_, rfl⟩
    · exact ⟨_, rfl⟩
    · exact ⟨_, rfl⟩

/-- Witness for the amended C8: `"qux"` (no such attribute) fails with
`AttributeError`, `"bump"` (an existing method attribute) fails with
`TypeError`, and `"major"` succeeds. -/
theorem bump_invalid_category_fails_witness :
    (∃ e, Version.bump ⟨1, 5, 9⟩ "qux" = .error e) ∧
    Version.bump ⟨1, 5, 9⟩ "bump" =
      .error (.typeError "unsupported operand type(s) for +") ∧
    Version.bump ⟨1, 5, 9⟩ "qux" = .error (.attributeError "qux") ∧
    ∃ w, Version.bump ⟨1, 5, 9⟩ "major" = .ok w :=
  ⟨(bump_invalid_category_fails ⟨1, 5, 9⟩ "qux").1
      (by decide) (by decide) (by decide),
   (bump_invalid_category_fails ⟨1, 5, 9⟩ "bump").2.1
      (by decide) (by decide) (by decide) (by decide),
   (bump_invalid_category_fails ⟨1, 5, 9⟩ "qux").2.2.1
      (by decide) (by decide) (by decide) (by decide),
   (bump_invalid_category_fails ⟨1, 5, 9⟩ "major").2.2.2 (Or.inl rfl)⟩

/-- C9: writing to a nonexistent file creates it as the heading followed
(after a blank line) by the entry; writing to an existing file whose
unique heading line starts with `"# Changelog"` reproduces every prior
line unchanged and in order, inserting the new entry (preceded by the
`print()` newline) immediately after the heading line. -/
theorem write_changelog_spec (changelog : String) :
    write_changelog none changelog = "# Changelog\n\n" ++ changelog ∧
    ∀ (pre post : List String) (h : String),
      pyStartsWith h "# Changelog" = true →
      (∀ l ∈ pre, pyStartsWith l "# Changelog" = false) →
      (∀ l ∈ post, pyStartsWith l "# Changelog" = false) →
      write_changelog (some (pre ++ h :: post)) changelog =
        String.join pre ++ (h ++ "\n" ++ changelog) ++ String.join post := by
  refine ⟨rfl, ?_⟩
  intro pre post h hh hpre hpost
  show String.join ((pre ++ h :: post).map fun line =>
    line ++ if pyStartsWith line "# Changelog" then "\n" ++ changelog else "") = _
  rw [List.map_append, List.map_cons]
  rw [mapEchoEq changelog pre hpre, mapEchoEq changelog post hpost]
  rw [if_pos (by simp [hh]), joinAppendEq, joinConsEq]
  simp [String.append_assoc]

/-- Witness for C9: updating a concrete changelog file inserts the entry
directly below the heading and keeps the old entries. -/
theorem write_changelog_spec_witness :
    write_changelog none "## entry\n" = "# Changelog\n\n" ++ "## entry\n" ∧
    write_changelog (some ["# Changelog\n", "\n", "## old\n"]) "## entry\n" =
      String.join [] ++ ("# Changelog\n" ++ "\n" ++ "## entry\n") ++
        String.join ["\n", "## old\n"] :=
  ⟨(write_changelog_spec "## entry\n").1,
   (write_changelog_spec "## entry\n").2 [] ["\n", "## old\n"] "# Changelog\n"
     (by decide) (by decide) (by decide)⟩

/-- C10: when the existing file has no line starting with `"# Changelog"`,
the update loop raises nothing and rewrites the file with exactly its
previous content — the new entry is silently discarded. -/
theorem write_changelog_no_heading (lines : List String) (changelog : String)
    (hnone : ∀ l ∈ lines, pyStartsWith l "# Changelog" = false) :
    write_changelog (some lines) changelog = String.join lines := by
  show String.join (lines.map fun line =>
    line ++ if pyStartsWith line "# Changelog" then "\n" ++ changelog else "") = _
  rw [mapEchoEq changelog lines hnone]

/-- Witness for C10: a concrete heading-less file is rewritten unchanged
and the entry disappears. -/
theorem write_changelog_no_heading_witness :
    write_changelog (some ["intro\n", "text\n"]) "## entry\n" =
      String.join ["intro\n", "text\n"] :=
  write_changelog_no_heading ["intro\n", "text\n"] "## entry\n" (by decide)
